import Mathlib

/-!
Verification of the HLS stream-orchestration engine (`src/app.py`).

The development shallowly embeds the engine's data model and operations:

* `EngineSt` mirrors the mutable fields of `StreamManager` (`process`,
  `active_metadata["status"]`/`["current"]`, `stop_signal`, `playlist_queue`,
  `current_index`, `is_looping`).  The OS process handle is an opaque pid
  (`Nat`); liveness of spawned processes is tracked in a system-level state.
* `kill_ffmpeg` embeds `StreamManager.kill_ffmpeg` including its exception
  structure: the Python code wraps only `self.process.wait(timeout=5)` in a
  `try`, catching only `subprocess.TimeoutExpired`; an exception raised by
  `send_signal` or `kill` propagates.  Fallibility of those operations is an
  explicit `TermBehavior` parameter and a propagated exception is the `raised`
  flag of `KillResult`, with the state as it was left.
* `Sys` couples the engine state with the set of live spawned pids and the
  media database, and `stepEv`/`Reachable` give the transition system whose
  events are one atomic `playlist_monitor` iteration (`tick`), an external
  process exit, the `/api/stream/start` and `/api/stream/stop` handlers, and
  database mutation.
* `cleanup_sweep` embeds one error-free iteration of `cleanup_segments`,
  `resource_monitor_iter` one iteration of `resource_monitor`, and the
  `race*` definitions the lock structure of `start_ffmpeg` (kill and spawn
  are two separate critical sections) for the interleaving analysis.
-/

/-- `active_metadata["status"]`: the engine phase string, `"IDLE"` or `"LIVE"`. -/
inductive Status where
  | IDLE : Status
  | LIVE : Status
deriving DecidableEq, Repr

/-- The mutable fields of `StreamManager` (src/app.py lines 47-56).
`process` is `some pid` when `self.process` is a `Popen` handle. -/
structure EngineSt where
  process : Option Nat
  status : Status
  current : Option String
  stop_signal : Bool
  playlist_queue : List String
  current_index : Nat
  is_looping : Bool
deriving DecidableEq, Repr

/-- A media record as stored in `database.json` (`Media` model). -/
structure MediaRec where
  id : String
  title : String
  url : String
deriving DecidableEq, Repr

/-- The JSON database: `{"media": [...], "groups": {...}}`; the `groups`
dict is modelled as an association list. -/
structure DBModel where
  media : List MediaRec
  groups : List (String × List String)
deriving DecidableEq, Repr

/-- `StreamManager._get_video_url` (lines 58-63): first media record whose
`id` matches, returning its `url`; `None` otherwise. -/
def get_video_url (db : DBModel) (vid : String) : Option String :=
  (db.media.find? (fun m => m.id == vid)).map (fun m => m.url)

/-- Lookup of `db["groups"][gid]` (dict membership / access). -/
def lookupGroup (db : DBModel) (gid : String) : Option (List String) :=
  (db.groups.find? (fun g => g.1 == gid)).map (fun g => g.2)

/-- Behaviour of the external process during `kill_ffmpeg`: whether
`send_signal(SIGTERM)` raises, whether the process exits within the
`wait(timeout=5)` grace period, and whether the escalated `kill()` raises. -/
structure TermBehavior where
  sigtermRaises : Bool
  exitsInGrace : Bool
  killRaises : Bool
deriving DecidableEq, Repr

/-- Outcome of `kill_ffmpeg`: `raised` is true when an exception propagated
out of the method (only `subprocess.TimeoutExpired` is caught, line 72);
`escalated` is true when `self.process.kill()` was invoked; `st` is the
engine state on exit (normal or exceptional). -/
structure KillResult where
  raised : Bool
  escalated : Bool
  st : EngineSt
deriving DecidableEq, Repr

/-- The grace period of `self.process.wait(timeout=5)` (line 71), seconds. -/
def kill_grace_timeout : Nat := 5

/-- `StreamManager.kill_ffmpeg` (lines 65-76).  Under the lock: if a process
handle exists, send SIGTERM (may raise, propagating with the state
unchanged), wait up to the grace period, on `TimeoutExpired` escalate to
`kill()` (may raise, propagating), then clear the handle; in the normal path
always set the metadata to IDLE / no current item. -/
def kill_ffmpeg (st : EngineSt) (b : TermBehavior) : KillResult :=
  match st.process with
  | none => ⟨false, false, { st with status := Status.IDLE, current := none }⟩
  | some _ =>
    if b.sigtermRaises then
      ⟨true, false, st⟩
    else if b.exitsInGrace then
      ⟨false, false, { st with process := none, status := Status.IDLE, current := none }⟩
    else if b.killRaises then
      ⟨true, true, st⟩
    else
      ⟨false, true, { st with process := none, status := Status.IDLE, current := none }⟩

/-- The memory threshold of `resource_monitor` (line 163), percent. -/
def memory_threshold : Nat := 85

/-- Outcome of one `resource_monitor` iteration: `raised` is true when an
exception propagated out of the iteration body (the loop body has no
`try`/`except`, so this terminates the sampling thread). -/
structure RMonResult where
  raised : Bool
  st : EngineSt
deriving DecidableEq, Repr

/-- One iteration of `resource_monitor` (lines 161-166): sample memory
percent; above the threshold, call `engine.kill_ffmpeg()`.  Nothing catches
an exception raised by the kill. -/
def resource_monitor_iter (mem : Nat) (st : EngineSt) (b : TermBehavior) : RMonResult :=
  if mem > memory_threshold then
    let k := kill_ffmpeg st b
    ⟨k.raised, k.st⟩
  else
    ⟨false, st⟩

/-- A directory entry of `LIVE_DIR`: file name and modification time
(`st_mtime`, seconds). -/
structure FileEnt where
  name : String
  mtime : Int
deriving DecidableEq, Repr

/-- The retention window of `cleanup_segments` (line 153), seconds. -/
def retention_window : Int := 60

/-- Suffix test on file names, on the underlying character sequence (the
`*.ts` glob of line 152 selects exactly the files whose name ends in
`".ts"`). -/
def strEndsWith (s suffix : String) : Bool :=
  suffix.data.isSuffixOf s.data

/-- One error-free sweep of `cleanup_segments` (lines 150-154): for each
file matched by `LIVE_DIR.glob("*.ts")`, unlink it when
`now - file.stat().st_mtime > 60`.  The result is the directory content
after the sweep. -/
def cleanup_sweep (now : Int) (files : List FileEnt) : List FileEnt :=
  files.filter (fun f => !(strEndsWith f.name ".ts" && decide (now - f.mtime > retention_window)))

/-- The system state: the engine, the set of pids of spawned transcoder
processes that are currently running (`poll()` returns `None` exactly for
these), a fresh-pid counter, and the content of `database.json`. -/
structure Sys where
  eng : EngineSt
  alivePids : List Nat
  nextPid : Nat
  db : DBModel
deriving DecidableEq, Repr

/-- The state at process start: `StreamManager.__init__` (lines 47-56) and
an empty database. -/
def initSys : Sys :=
  { eng := { process := none, status := Status.IDLE, current := none,
             stop_signal := false, playlist_queue := [], current_index := 0,
             is_looping := false },
    alivePids := [], nextPid := 0, db := ⟨[], []⟩ }

/-- Line 113: `not self.process or self.process.poll() is not None`. -/
def procDead (s : Sys) : Bool :=
  match s.eng.process with
  | none => true
  | some p => !(s.alivePids.contains p)

/-- The supervisor's liveness query: a non-null handle whose process is
still running. -/
def isAlive (s : Sys) : Bool :=
  match s.eng.process with
  | none => false
  | some p => s.alivePids.contains p

/-- The non-raising termination behaviour (SIGTERM delivered, process exits
within the grace period). -/
def happyTerm : TermBehavior := ⟨false, true, false⟩

/-- `kill_ffmpeg` as it acts on the whole system when no termination
operation raises: the engine state changes per `kill_ffmpeg`, and the
terminated process leaves the set of live pids. -/
def sysKill (s : Sys) : Sys :=
  match s.eng.process with
  | none => { s with eng := (kill_ffmpeg s.eng happyTerm).st }
  | some p =>
      { s with eng := (kill_ffmpeg s.eng happyTerm).st,
               alivePids := s.alivePids.filter (fun q => q != p) }

/-- `StreamManager.start_ffmpeg` (lines 78-106): always `kill_ffmpeg` first;
then, in a second lock acquisition, `Popen` the transcoder.  `spawnOk`
models whether `Popen` succeeds; on failure the exception is caught in the
method (lines 105-106) and the state is left as the kill left it. -/
def start_ffmpeg_sys (s : Sys) (url : String) (spawnOk : Bool) : Sys :=
  let s1 := sysKill s
  if spawnOk then
    { s1 with
      eng := { s1.eng with process := some s1.nextPid, status := Status.LIVE,
                           current := some url },
      alivePids := s1.nextPid :: s1.alivePids,
      nextPid := s1.nextPid + 1 }
  else s1

/-- Lines 123-130 of `playlist_monitor`: read the queue entry at the cursor,
resolve it; on success start it and advance the cursor, on failure (broken
id) just advance the cursor.  The `none` branch of the list read is
unreachable under the cursor guard of line 114. -/
def monitorStep (s : Sys) (spawnOk : Bool) : Sys :=
  match s.eng.playlist_queue.get? s.eng.current_index with
  | none => s
  | some tid =>
    match get_video_url s.db tid with
    | some url =>
        let s1 := start_ffmpeg_sys s url spawnOk
        { s1 with eng := { s1.eng with current_index := s1.eng.current_index + 1 } }
    | none =>
        { s with eng := { s.eng with current_index := s.eng.current_index + 1 } }

/-- One iteration of `playlist_monitor` (lines 110-132), taken as atomic:
do nothing unless `not stop_signal and playlist_queue`; do nothing unless
the process is dead; at the end of the queue either reset the cursor to 0
and fall through (looping) or empty the queue and `continue` (not looping);
otherwise run the resolve-and-start step. -/
def tick (s : Sys) (spawnOk : Bool) : Sys :=
  if !s.eng.stop_signal && !s.eng.playlist_queue.isEmpty then
    if procDead s then
      if s.eng.playlist_queue.length ≤ s.eng.current_index then
        if s.eng.is_looping then
          monitorStep { s with eng := { s.eng with current_index := 0 } } spawnOk
        else
          { s with eng := { s.eng with playlist_queue := [] } }
      else
        monitorStep s spawnOk
    else s
  else s

/-- The request body of `POST /api/stream/start` (`StreamConfig`, lines
40-43). -/
structure StreamConfig where
  url : Option String := none
  group_id : Option String := none
  loop : Bool := true
deriving DecidableEq, Repr

/-- `start_stream` (lines 208-226).  Returns the HTTP error status raised
(only `some 404`, for an unknown group) together with the resulting system
state.  `engine.stop_signal = False` runs before anything else; the group
branch installs the group's ids, resets the cursor, sets the loop flag and
kills; the url branch clears the queue and starts directly. -/
def start_stream (s : Sys) (cfg : StreamConfig) (spawnOk : Bool) : Option Nat × Sys :=
  let s0 : Sys := { s with eng := { s.eng with stop_signal := false } }
  match cfg.group_id with
  | some gid =>
    match lookupGroup s0.db gid with
    | none => (some 404, s0)
    | some ids =>
        (none,
         sysKill { s0 with eng := { s0.eng with playlist_queue := ids,
                                                current_index := 0,
                                                is_looping := cfg.loop } })
  | none =>
    match cfg.url with
    | some u =>
        (none,
         start_ffmpeg_sys { s0 with eng := { s0.eng with playlist_queue := [] } } u spawnOk)
    | none => (none, s0)

/-- `stop_stream` (lines 228-233): set `stop_signal`, empty the queue, kill. -/
def stop_stream (s : Sys) : Sys :=
  sysKill { s with eng := { s.eng with stop_signal := true, playlist_queue := [] } }

/-- Re-enabling auto mode alone: clearing `stop_signal` without touching
anything else (the only other effect a later `start_stream` call would have). -/
def reenableAuto (s : Sys) : Sys :=
  { s with eng := { s.eng with stop_signal := false } }

/-- Events of the system: an atomic scheduler tick, the active process
exiting on its own (end of media or crash), a `/api/stream/start` request,
a `/api/stream/stop` request, and a database mutation (the media/groups
endpoints). -/
inductive Ev where
  | tick (spawnOk : Bool) : Ev
  | procExit : Ev
  | control (cfg : StreamConfig) (spawnOk : Bool) : Ev
  | stopReq : Ev
  | setDb (db : DBModel) : Ev

/-- The transition function of the system. -/
def stepEv (s : Sys) : Ev → Sys
  | Ev.tick ok => tick s ok
  | Ev.procExit =>
    match s.eng.process with
    | some p => { s with alivePids := s.alivePids.filter (fun q => q != p) }
    | none => s
  | Ev.control cfg ok => (start_stream s cfg ok).2
  | Ev.stopReq => stop_stream s
  | Ev.setDb db => { s with db := db }

/-- States reachable from process start. -/
inductive Reachable : Sys → Prop where
  | init : Reachable initSys
  | step : ∀ (s : Sys) (e : Ev), Reachable s → Reachable (stepEv s e)

/-!
Interleaving model of two concurrent `start_ffmpeg` calls.

`start_ffmpeg` takes the lock twice: once inside the initial `kill_ffmpeg`
(lines 66-76) and once around the `Popen` (lines 97-104); between the two
acquisitions the lock is free.  Each thread therefore executes two atomic
sections: a kill section and a spawn section.  The spawn section does not
re-check `self.process`; it overwrites it with the new handle.
-/

/-- Shared state plus one program counter per thread (0 = before the kill
section, 1 = before the spawn section, 2 = done). -/
structure RaceSt where
  process : Option Nat
  alive : List Nat
  nextPid : Nat
  pc1 : Nat
  pc2 : Nat
deriving DecidableEq, Repr

/-- Both threads about to enter `start_ffmpeg`, nothing running. -/
def raceInit : RaceSt := ⟨none, [], 0, 0, 0⟩

/-- Run one atomic section of thread 1 (`t2 = false`) or thread 2
(`t2 = true`): the kill section terminates the currently tracked process
and clears the handle; the spawn section launches a fresh process and
overwrites the handle with it. -/
def raceStep (s : RaceSt) (t2 : Bool) : RaceSt :=
  let pc := if t2 then s.pc2 else s.pc1
  if pc = 0 then
    let s1 :=
      match s.process with
      | some p => { s with process := none, alive := s.alive.filter (fun q => q != p) }
      | none => s
    if t2 then { s1 with pc2 := 1 } else { s1 with pc1 := 1 }
  else if pc = 1 then
    { s with process := some s.nextPid, alive := s.nextPid :: s.alive,
             nextPid := s.nextPid + 1,
             pc1 := if t2 then s.pc1 else 2, pc2 := if t2 then 2 else s.pc2 }
  else s

/-- Run a schedule: each entry names the thread whose next section runs. -/
def runSched (sched : List Bool) (s : RaceSt) : RaceSt :=
  sched.foldl raceStep s

/-!
Invariants of the reachable states of the system.
-/

/-- The inductive invariant: (1) while the queue is nonempty the cursor is
within `[0, length]`; (2) a LIVE phase implies a non-null handle; (3) a
non-null handle whose process is still running implies a LIVE phase. -/
def SysInv (s : Sys) : Prop :=
  (s.eng.playlist_queue ≠ [] → s.eng.current_index ≤ s.eng.playlist_queue.length)
  ∧ (s.eng.status = Status.LIVE → s.eng.process ≠ none)
  ∧ (∀ p : Nat, s.eng.process = some p → s.alivePids.contains p = true →
       s.eng.status = Status.LIVE)

/-!
Concrete states used by the claim-level theorems.
-/

/-- A database with one group `"g" -> ["a"]` and no media records, so the
id `"a"` does not resolve. -/
def db0 : DBModel := ⟨[], [("g", ["a"])]⟩

/-- After installing `db0` and starting group `"g"` with `loop=false`:
queue `["a"]`, cursor 0, engine idle. -/
def c1mid : Sys :=
  stepEv (stepEv initSys (Ev.setDb db0)) (Ev.control ⟨none, some "g", false⟩ true)

/-- Two further scheduler ticks: the first skips the broken id `"a"`
(cursor 1), the second finds the cursor at the queue length with
`loop=false` and empties the queue, leaving the cursor at 1. -/
def c1state : Sys := stepEv (stepEv c1mid (Ev.tick true)) (Ev.tick true)

/-- A solo stream started via the url branch of `start_stream`: process
pid 0 running, phase LIVE. -/
def c3mid : Sys := stepEv initSys (Ev.control ⟨some "u", none, true⟩ true)

/-- The same stream after the transcoder process exits on its own
(crash or end of media): the handle still holds pid 0, the phase is
still LIVE, but the process is no longer alive. -/
def c3state : Sys := stepEv c3mid Ev.procExit

/-- An engine state with a live process: handle pid 0, phase LIVE. -/
def liveEngineSt : EngineSt :=
  ⟨some 0, Status.LIVE, some "u", false, [], 0, false⟩

/-- Termination behaviour: no operation raises, but the process does not
exit within the grace period, so the kill escalates. -/
def termEscalate : TermBehavior := ⟨false, false, false⟩

/-- A system whose queue holds the single id `"x"` that resolves to no
media record (empty database). -/
def brokenIdSys : Sys :=
  { initSys with eng := { initSys.eng with playlist_queue := ["x"] } }

/-- A segment file last modified at time 0. -/
def staleSeg : FileEnt := ⟨"chunk_000.ts", 0⟩

/-- The manifest file, last modified at time 0. -/
def manifestFile : FileEnt := ⟨"index.m3u8", 0⟩

theorem kill_happy_st (st : EngineSt) :
    (kill_ffmpeg st happyTerm).st =
      { st with process := none, status := Status.IDLE, current := none } := by
  cases st with
  | mk p st c ss q i l => cases p <;> rfl

theorem sysKill_spec (s : Sys) :
    (sysKill s).eng = { s.eng with process := none, status := Status.IDLE, current := none }
    ∧ (sysKill s).nextPid = s.nextPid
    ∧ (sysKill s).db = s.db := by
  unfold sysKill
  cases h : s.eng.process <;> simp [kill_happy_st]

theorem start_ffmpeg_sys_frame (s : Sys) (url : String) (ok : Bool) :
    (start_ffmpeg_sys s url ok).eng.playlist_queue = s.eng.playlist_queue
    ∧ (start_ffmpeg_sys s url ok).eng.current_index = s.eng.current_index
    ∧ (start_ffmpeg_sys s url ok).eng.is_looping = s.eng.is_looping
    ∧ (start_ffmpeg_sys s url ok).eng.stop_signal = s.eng.stop_signal
    ∧ (start_ffmpeg_sys s url ok).db = s.db := by
  unfold start_ffmpeg_sys
  rcases sysKill_spec s with ⟨he, _, hd⟩
  cases ok <;> simp [he, hd]

theorem start_ffmpeg_sys_phase (s : Sys) (url : String) (ok : Bool) :
    ((start_ffmpeg_sys s url ok).eng.status = Status.LIVE →
        (start_ffmpeg_sys s url ok).eng.process ≠ none)
    ∧ (∀ p : Nat, (start_ffmpeg_sys s url ok).eng.process = some p →
        (start_ffmpeg_sys s url ok).alivePids.contains p = true →
        (start_ffmpeg_sys s url ok).eng.status = Status.LIVE) := by
  unfold start_ffmpeg_sys
  rcases sysKill_spec s with ⟨he, _, _⟩
  cases ok <;> simp [he]

theorem monitorStep_frame (s : Sys) (ok : Bool) :
    (monitorStep s ok).eng.playlist_queue = s.eng.playlist_queue
    ∧ (monitorStep s ok).eng.current_index =
        (if (s.eng.playlist_queue.get? s.eng.current_index).isSome
         then s.eng.current_index + 1 else s.eng.current_index)
    ∧ (monitorStep s ok).eng.is_looping = s.eng.is_looping
    ∧ (monitorStep s ok).eng.stop_signal = s.eng.stop_signal
    ∧ (monitorStep s ok).db = s.db := by
  unfold monitorStep
  cases hq : s.eng.playlist_queue.get? s.eng.current_index with
  | none => simp
  | some tid =>
    cases hr : get_video_url s.db tid with
    | none => simp [hr]
    | some url =>
      rcases start_ffmpeg_sys_frame s url ok with ⟨h1, h2, h3, h4, h5⟩
      simp [hr, h1, h2, h3, h4, h5]

theorem monitorStep_phase (s : Sys) (ok : Bool)
    (hst : s.eng.status = Status.LIVE → s.eng.process ≠ none)
    (hal : ∀ p : Nat, s.eng.process = some p → s.alivePids.contains p = true →
      s.eng.status = Status.LIVE) :
    ((monitorStep s ok).eng.status = Status.LIVE →
        (monitorStep s ok).eng.process ≠ none)
    ∧ (∀ p : Nat, (monitorStep s ok).eng.process = some p →
        (monitorStep s ok).alivePids.contains p = true →
        (monitorStep s ok).eng.status = Status.LIVE) := by
  unfold monitorStep
  cases hq : s.eng.playlist_queue.get? s.eng.current_index with
  | none => exact ⟨hst, hal⟩
  | some tid =>
    cases hr : get_video_url s.db tid with
    | none => simp only [hr]; exact ⟨hst, hal⟩
    | some url =>
      rcases start_ffmpeg_sys_phase s url ok with ⟨h1, h2⟩
      simp only [hr]
      exact ⟨h1, h2⟩

theorem monitorStep_inv (s : Sys) (ok : Bool) (h : SysInv s) :
    SysInv (monitorStep s ok) := by
  obtain ⟨h1, h2, h3⟩ := h
  obtain ⟨f1, f2, _, _, _⟩ := monitorStep_frame s ok
  obtain ⟨p1, p2⟩ := monitorStep_phase s ok h2 h3
  refine ⟨?_, p1, p2⟩
  intro hne
  rw [f1] at hne
  rw [f1, f2]
  split
  · next hs =>
      obtain ⟨a, ha⟩ := Option.isSome_iff_exists.mp hs
      have hlt : s.eng.current_index < s.eng.playlist_queue.length :=
        (List.get?_eq_some.mp ha).1
      omega
  · exact h1 hne

theorem tick_inv (s : Sys) (ok : Bool) (h : SysInv s) : SysInv (tick s ok) := by
  obtain ⟨h1, h2, h3⟩ := h
  unfold tick
  split
  · split
    · split
      · split
        · exact monitorStep_inv _ ok ⟨fun _ => by simp, by simpa using h2, by simpa using h3⟩
        · exact ⟨by simp, by simpa using h2, by simpa using h3⟩
      · exact monitorStep_inv s ok ⟨h1, h2, h3⟩
    · exact ⟨h1, h2, h3⟩
  · exact ⟨h1, h2, h3⟩

theorem start_stream_inv (s : Sys) (cfg : StreamConfig) (ok : Bool) (h : SysInv s) :
    SysInv (start_stream s cfg ok).2 := by
  obtain ⟨h1, h2, h3⟩ := h
  unfold start_stream
  cases hg : cfg.group_id with
  | some gid =>
    cases hl : lookupGroup s.db gid with
    | none => simp only [hl]; exact ⟨by simpa using h1, by simpa using h2, by simpa using h3⟩
    | some ids =>
      simp only [hl]
      obtain ⟨he, _, _⟩ := sysKill_spec
        { s with eng := { s.eng with stop_signal := false, playlist_queue := ids,
                                     current_index := 0, is_looping := cfg.loop } }
      refine ⟨?_, ?_, ?_⟩
      · intro _; simp [he]
      · intro hst; rw [he] at hst; simp at hst
      · intro p hp; rw [he] at hp; simp at hp
  | none =>
    cases hu : cfg.url with
    | none => exact ⟨by simpa using h1, by simpa using h2, by simpa using h3⟩
    | some u =>
      simp only
      set s2 : Sys :=
        { s with eng := { s.eng with stop_signal := false, playlist_queue := [] } } with hs2
      obtain ⟨f1, _, _, _, _⟩ := start_ffmpeg_sys_frame s2 u ok
      obtain ⟨p1, p2⟩ := start_ffmpeg_sys_phase s2 u ok
      refine ⟨?_, p1, p2⟩
      intro hne
      rw [f1] at hne
      simp [hs2] at hne

theorem stop_stream_inv (s : Sys) : SysInv (stop_stream s) := by
  unfold stop_stream
  obtain ⟨he, _, _⟩ := sysKill_spec
    { s with eng := { s.eng with stop_signal := true, playlist_queue := [] } }
  refine ⟨?_, ?_, ?_⟩
  · intro hne; rw [he] at hne; simp at hne
  · intro hst; rw [he] at hst; simp at hst
  · intro p hp; rw [he] at hp; simp at hp

theorem stepEv_inv (s : Sys) (e : Ev) (h : SysInv s) : SysInv (stepEv s e) := by
  obtain ⟨h1, h2, h3⟩ := h
  cases e with
  | tick ok => exact tick_inv s ok ⟨h1, h2, h3⟩
  | procExit =>
    show SysInv (match s.eng.process with
      | some p => { s with alivePids := s.alivePids.filter (fun q => q != p) }
      | none => s)
    cases hp : s.eng.process with
    | none => exact ⟨h1, h2, h3⟩
    | some p =>
      refine ⟨by simpa using h1, by simpa using h2, ?_⟩
      intro q hq hmem
      simp only at hq hmem
      rw [hp] at hq
      obtain rfl : p = q := by injection hq
      exfalso
      simp at hmem
  | control cfg ok => exact start_stream_inv s cfg ok ⟨h1, h2, h3⟩
  | stopReq => exact stop_stream_inv s
  | setDb db => exact ⟨by simpa using h1, by simpa using h2, by simpa using h3⟩

theorem init_inv : SysInv initSys := by
  refine ⟨?_, ?_, ?_⟩
  · intro hne; simp [initSys] at hne
  · intro hst; simp [initSys] at hst
  · intro p hp; simp [initSys] at hp

theorem reachable_inv (s : Sys) (h : Reachable s) : SysInv s := by
  induction h with
  | init => exact init_inv
  | step s e _ ih => exact stepEv_inv s e ih

theorem tick_empty_queue (s : Sys) (ok : Bool) (h : s.eng.playlist_queue = []) :
    tick s ok = s := by
  unfold tick
  simp [h]

theorem tick_done_noloop (s : Sys) (ok : Bool)
    (hss : s.eng.stop_signal = false) (hne : s.eng.playlist_queue ≠ [])
    (hd : procDead s = true)
    (hlen : s.eng.playlist_queue.length ≤ s.eng.current_index)
    (hl : s.eng.is_looping = false) :
    tick s ok = { s with eng := { s.eng with playlist_queue := [] } } := by
  unfold tick
  simp [hss, hne, hd, hlen, hl]

theorem tick_done_loop (s : Sys) (ok : Bool)
    (hss : s.eng.stop_signal = false) (hne : s.eng.playlist_queue ≠ [])
    (hd : procDead s = true)
    (hlen : s.eng.playlist_queue.length ≤ s.eng.current_index)
    (hl : s.eng.is_looping = true) :
    (tick s ok).eng.current_index = 1
    ∧ (tick s ok).eng.playlist_queue = s.eng.playlist_queue := by
  have hstep : tick s ok =
      monitorStep { s with eng := { s.eng with current_index := 0 } } ok := by
    unfold tick
    simp [hss, hne, hd, hlen, hl]
  obtain ⟨f1, f2, _, _, _⟩ :=
    monitorStep_frame { s with eng := { s.eng with current_index := 0 } } ok
  obtain ⟨a, t, hq⟩ := List.exists_cons_of_ne_nil hne
  rw [hstep, f1, f2]
  simp [hq]

theorem tick_skip_broken (s : Sys) (ok : Bool) (tid : String)
    (hss : s.eng.stop_signal = false)
    (hd : procDead s = true)
    (hq : s.eng.playlist_queue.get? s.eng.current_index = some tid)
    (hr : get_video_url s.db tid = none) :
    tick s ok = { s with eng := { s.eng with current_index := s.eng.current_index + 1 } } := by
  have hlt : s.eng.current_index < s.eng.playlist_queue.length := by
    obtain ⟨h, _⟩ := List.get?_eq_some.mp hq
    exact h
  have hne : s.eng.playlist_queue ≠ [] := by
    intro h
    rw [h] at hq
    simp at hq
  unfold tick monitorStep
  rw [if_pos (by simp [hss, hne]), if_pos hd, if_neg (by omega)]
  simp only [hq, hr]

theorem kill_ffmpeg_no_raise (st : EngineSt) (b : TermBehavior)
    (h1 : b.sigtermRaises = false) (h2 : b.killRaises = false) :
    (kill_ffmpeg st b).raised = false
    ∧ (kill_ffmpeg st b).st.process = none
    ∧ (kill_ffmpeg st b).st.status = Status.IDLE
    ∧ (kill_ffmpeg st b).st.current = none
    ∧ ((kill_ffmpeg st b).escalated = true ↔
        (st.process ≠ none ∧ b.exitsInGrace = false)) := by
  unfold kill_ffmpeg
  cases hp : st.process with
  | none => simp [hp]
  | some p => cases hg : b.exitsInGrace <;> simp [h1, h2, hg]

/-!
Claim-level theorems.
-/

/-- Claim C1, counterexample: the reachable state `c1state` (group of one
unresolvable id started with `loop=false`, then two ticks) has an empty
queue but cursor 1, so the cursor is NOT within `[0, queue length]` in
every state of the scheduler: the queue-emptying branch of
`playlist_monitor` (line 119) never resets `current_index`. -/
theorem C1_counterexample :
    Reachable c1state
    ∧ c1state.eng.playlist_queue = []
    ∧ c1state.eng.current_index = 1
    ∧ ¬(c1state.eng.current_index ≤ c1state.eng.playlist_queue.length) :=
  ⟨Reachable.step _ _ (Reachable.step _ _ (Reachable.step _ _
      (Reachable.step _ _ Reachable.init))),
   by decide, by decide, by decide⟩

/-- Claim C1, amended: in every reachable state the cursor is within
`[0, queue length]` as long as the queue is nonempty.  A tick that finds
the cursor at (or past) the queue length with a dead process resets the
cursor to 0 and immediately processes entry 0 when the loop flag is set
(ending the tick with cursor 1 and the queue kept), and otherwise empties
the queue leaving the cursor unchanged; once the queue is empty a tick is
a no-op, so no process is started until a new Start call installs a queue. -/
theorem C1_cursor_and_end_of_queue (s : Sys) (h : Reachable s) :
    (s.eng.playlist_queue ≠ [] →
        s.eng.current_index ≤ s.eng.playlist_queue.length)
    ∧ (∀ ok : Bool, s.eng.stop_signal = false → procDead s = true →
        s.eng.playlist_queue ≠ [] →
        s.eng.playlist_queue.length ≤ s.eng.current_index →
          (s.eng.is_looping = false →
            tick s ok = { s with eng := { s.eng with playlist_queue := [] } })
          ∧ (s.eng.is_looping = true →
              (tick s ok).eng.current_index = 1
              ∧ (tick s ok).eng.playlist_queue = s.eng.playlist_queue))
    ∧ (∀ ok : Bool, s.eng.playlist_queue = [] → tick s ok = s) := by
  refine ⟨(reachable_inv s h).1, ?_, ?_⟩
  · intro ok hss hd hne hlen
    exact ⟨fun hl => tick_done_noloop s ok hss hne hd hlen hl,
           fun hl => tick_done_loop s ok hss hne hd hlen hl⟩
  · intro ok hq
    exact tick_empty_queue s ok hq

/-- Witness for C1 at the reachable state `c1mid` (nonempty queue). -/
theorem C1_cursor_and_end_of_queue_witness :
    Reachable c1mid
    ∧ ((c1mid.eng.playlist_queue ≠ [] →
          c1mid.eng.current_index ≤ c1mid.eng.playlist_queue.length)
      ∧ (∀ ok : Bool, c1mid.eng.stop_signal = false → procDead c1mid = true →
          c1mid.eng.playlist_queue ≠ [] →
          c1mid.eng.playlist_queue.length ≤ c1mid.eng.current_index →
            (c1mid.eng.is_looping = false →
              tick c1mid ok =
                { c1mid with eng := { c1mid.eng with playlist_queue := [] } })
            ∧ (c1mid.eng.is_looping = true →
                (tick c1mid ok).eng.current_index = 1
                ∧ (tick c1mid ok).eng.playlist_queue = c1mid.eng.playlist_queue))
      ∧ (∀ ok : Bool, c1mid.eng.playlist_queue = [] → tick c1mid ok = c1mid)) := by
  have hreach : Reachable c1mid :=
    Reachable.step _ _ (Reachable.step _ _ Reachable.init)
  exact ⟨hreach, C1_cursor_and_end_of_queue c1mid hreach⟩

/-- Claim C2, counterexample: a stop during which `send_signal(SIGTERM)`
raises does NOT leave EngineState at IDLE with a null handle — only
`subprocess.TimeoutExpired` is caught (line 72), so the exception
propagates and the handle and the LIVE phase survive. -/
theorem C2_counterexample :
    (kill_ffmpeg liveEngineSt ⟨true, false, false⟩).raised = true
    ∧ (kill_ffmpeg liveEngineSt ⟨true, false, false⟩).st.process = some 0
    ∧ (kill_ffmpeg liveEngineSt ⟨true, false, false⟩).st.status = Status.LIVE := by
  decide

/-- Claim C2, amended: provided the termination operations themselves do
not raise, `kill_ffmpeg` requests graceful termination, waits at most the
5-second grace period (within the recommended 2-5 s), escalates to
`kill()` exactly when an active process has not exited in time, and leaves
EngineState at IDLE with a null handle; an exception raised by
`send_signal` or `kill` propagates with the state unchanged. -/
theorem C2_stop_best_effort (st : EngineSt) (b : TermBehavior)
    (h1 : b.sigtermRaises = false) (h2 : b.killRaises = false) :
    (kill_ffmpeg st b).raised = false
    ∧ (kill_ffmpeg st b).st.process = none
    ∧ (kill_ffmpeg st b).st.status = Status.IDLE
    ∧ (kill_ffmpeg st b).st.current = none
    ∧ ((kill_ffmpeg st b).escalated = true ↔
        (st.process ≠ none ∧ b.exitsInGrace = false))
    ∧ 2 ≤ kill_grace_timeout ∧ kill_grace_timeout ≤ 5 := by
  obtain ⟨ha, hb, hc, hd, he⟩ := kill_ffmpeg_no_raise st b h1 h2
  exact ⟨ha, hb, hc, hd, he, by decide, by decide⟩

/-- Witness for C2: stopping a live process whose graceful wait times out. -/
theorem C2_stop_best_effort_witness :
    (termEscalate.sigtermRaises = false ∧ termEscalate.killRaises = false)
    ∧ ((kill_ffmpeg liveEngineSt termEscalate).raised = false
      ∧ (kill_ffmpeg liveEngineSt termEscalate).st.process = none
      ∧ (kill_ffmpeg liveEngineSt termEscalate).st.status = Status.IDLE
      ∧ (kill_ffmpeg liveEngineSt termEscalate).st.current = none
      ∧ ((kill_ffmpeg liveEngineSt termEscalate).escalated = true ↔
          (liveEngineSt.process ≠ none ∧ termEscalate.exitsInGrace = false))
      ∧ 2 ≤ kill_grace_timeout ∧ kill_grace_timeout ≤ 5) :=
  ⟨⟨rfl, rfl⟩, C2_stop_best_effort liveEngineSt termEscalate rfl rfl⟩

/-- Claim C3, counterexample: after a solo start the process exits on its
own; the reachable state `c3state` has phase LIVE with a non-null handle
whose process is dead, so LIVE is NOT equivalent to "handle non-null and
alive": nothing reconciles the phase until a kill or start runs. -/
theorem C3_counterexample :
    Reachable c3state
    ∧ c3state.eng.status = Status.LIVE
    ∧ c3state.eng.process = some 0
    ∧ isAlive c3state = false :=
  ⟨Reachable.step _ _ (Reachable.step _ _ Reachable.init),
   by decide, by decide, by decide⟩

/-- Claim C3, amended: in every reachable state a LIVE phase implies a
non-null process handle, and a non-null handle whose process is reported
alive implies a LIVE phase; but a process that has exited does not by
itself make the phase IDLE — the stale LIVE phase persists until the next
kill or start. -/
theorem C3_phase_vs_liveness (s : Sys) (h : Reachable s) :
    (s.eng.status = Status.LIVE → s.eng.process ≠ none)
    ∧ (isAlive s = true → s.eng.status = Status.LIVE) := by
  obtain ⟨_, h2, h3⟩ := reachable_inv s h
  refine ⟨h2, ?_⟩
  intro ha
  unfold isAlive at ha
  cases hp : s.eng.process with
  | none => rw [hp] at ha; simp at ha
  | some p =>
    rw [hp] at ha
    exact h3 p hp ha

/-- Witness for C3 at the reachable state `c3mid` (live solo stream). -/
theorem C3_phase_vs_liveness_witness :
    Reachable c3mid
    ∧ isAlive c3mid = true
    ∧ ((c3mid.eng.status = Status.LIVE → c3mid.eng.process ≠ none)
      ∧ (isAlive c3mid = true → c3mid.eng.status = Status.LIVE)) := by
  have hreach : Reachable c3mid := Reachable.step _ _ Reachable.init
  exact ⟨hreach, by decide, C3_phase_vs_liveness c3mid hreach⟩

/-- Claim C4: a tick whose queue entry at the cursor does not resolve to a
media record leaves the whole system unchanged except that the cursor
advances by one — the entry is skipped, no exception is raised (the tick
is a total step), and the scheduling loop goes on. -/
theorem C4_broken_id_skipped (s : Sys) (ok : Bool) (tid : String)
    (hss : s.eng.stop_signal = false)
    (hd : procDead s = true)
    (hq : s.eng.playlist_queue.get? s.eng.current_index = some tid)
    (hr : get_video_url s.db tid = none) :
    tick s ok =
      { s with eng := { s.eng with current_index := s.eng.current_index + 1 } } :=
  tick_skip_broken s ok tid hss hd hq hr

/-- Witness for C4: queue `["x"]` over an empty database. -/
theorem C4_broken_id_skipped_witness :
    (brokenIdSys.eng.stop_signal = false
      ∧ procDead brokenIdSys = true
      ∧ brokenIdSys.eng.playlist_queue.get? brokenIdSys.eng.current_index = some "x"
      ∧ get_video_url brokenIdSys.db "x" = none)
    ∧ tick brokenIdSys true =
        { brokenIdSys with
          eng := { brokenIdSys.eng with
                   current_index := brokenIdSys.eng.current_index + 1 } } :=
  ⟨⟨rfl, rfl, rfl, rfl⟩,
   C4_broken_id_skipped brokenIdSys true "x" rfl rfl rfl rfl⟩

/-- Claim C5, counterexample: `start_ffmpeg` takes the lock once for the
kill (lines 66-76) and again for the spawn (lines 97-104); in the
interleaving kill-1, kill-2, spawn-1, spawn-2 both racing starts complete
and TWO transcoder processes (pids 0 and 1) are left running concurrently,
with only pid 1 tracked by the handle — so serialization of the handle
mutations does not give the claimed single-active-transcoder guarantee. -/
theorem C5_counterexample :
    (runSched [false, true, false, true] raceInit).pc1 = 2
    ∧ (runSched [false, true, false, true] raceInit).pc2 = 2
    ∧ (runSched [false, true, false, true] raceInit).alive = [1, 0]
    ∧ (runSched [false, true, false, true] raceInit).process = some 1 := by
  decide

/-- Claim C5, amended: the handle field itself holds at most one process,
and when the two racing `start_ffmpeg` calls are serialized (one runs both
its critical sections before the other starts) exactly one transcoder is
left alive; but because the lock is released between the kill section and
the spawn section, the interleaved schedule leaves two live transcoders,
one of them orphaned. -/
theorem C5_start_serialization :
    ((runSched [false, false, true, true] raceInit).alive = [1]
      ∧ (runSched [false, false, true, true] raceInit).process = some 1)
    ∧ ((runSched [true, true, false, false] raceInit).alive = [1]
      ∧ (runSched [true, true, false, false] raceInit).process = some 1)
    ∧ ((runSched [false, true, false, true] raceInit).alive = [1, 0]
      ∧ (runSched [false, true, false, true] raceInit).process = some 1) := by
  decide

/-- Claim C6: on an error-free sweep, a `.ts` segment file is deleted if
and only if its age at sweep time exceeds the 60-second retention window;
files at or under the window are retained. -/
theorem C6_sweep_iff (now : Int) (files : List FileEnt) (f : FileEnt)
    (hf : f ∈ files) (hts : strEndsWith f.name ".ts" = true) :
    (f ∉ cleanup_sweep now files ↔ now - f.mtime > retention_window) := by
  unfold cleanup_sweep
  simp [List.mem_filter, hf, hts]
  omega

/-- Witness for C6: a 100-second-old segment is deleted. -/
theorem C6_sweep_iff_witness :
    (staleSeg ∈ [staleSeg] ∧ strEndsWith staleSeg.name ".ts" = true)
    ∧ (staleSeg ∉ cleanup_sweep 100 [staleSeg] ↔
        (100 : Int) - staleSeg.mtime > retention_window) :=
  ⟨⟨by decide, by decide⟩, C6_sweep_iff 100 [staleSeg] staleSeg (by decide) (by decide)⟩

/-- Claim C7, counterexample: a sample above the threshold during which the
kill raises leaves the handle non-null (the process is NOT stopped) and the
exception propagates out of the iteration — `resource_monitor` has no
`try`/`except`, so the sampling thread terminates. -/
theorem C7_counterexample :
    (resource_monitor_iter 92 liveEngineSt ⟨true, false, false⟩).raised = true
    ∧ (resource_monitor_iter 92 liveEngineSt ⟨true, false, false⟩).st.process = some 0
    ∧ (resource_monitor_iter 92 liveEngineSt ⟨true, false, false⟩).st.status
        = Status.LIVE := by
  decide

/-- Claim C7, amended: a sample above the 85% threshold forcibly stops the
supervisor's process (null handle, hence not alive by the next sample)
provided the termination operations do not raise; an error raised during
the stop propagates out of the unprotected monitor loop and terminates the
sampling task. -/
theorem C7_guard_stops_on_high_memory (mem : Nat) (st : EngineSt) (b : TermBehavior)
    (hm : mem > memory_threshold)
    (h1 : b.sigtermRaises = false) (h2 : b.killRaises = false) :
    (resource_monitor_iter mem st b).raised = false
    ∧ (resource_monitor_iter mem st b).st.process = none
    ∧ (resource_monitor_iter mem st b).st.status = Status.IDLE := by
  obtain ⟨ha, hb, hc, _, _⟩ := kill_ffmpeg_no_raise st b h1 h2
  unfold resource_monitor_iter
  simp only [if_pos hm]
  exact ⟨ha, hb, hc⟩

/-- Witness for C7: memory at 92% with a live process and a clean kill. -/
theorem C7_guard_stops_on_high_memory_witness :
    (92 > memory_threshold
      ∧ termEscalate.sigtermRaises = false ∧ termEscalate.killRaises = false)
    ∧ ((resource_monitor_iter 92 liveEngineSt termEscalate).raised = false
      ∧ (resource_monitor_iter 92 liveEngineSt termEscalate).st.process = none
      ∧ (resource_monitor_iter 92 liveEngineSt termEscalate).st.status
          = Status.IDLE) :=
  ⟨⟨by decide, rfl, rfl⟩,
   C7_guard_stops_on_high_memory 92 liveEngineSt termEscalate (by decide) rfl rfl⟩

/-- Claim C8: a Start request naming a group id absent from the store
raises HTTP 404 to the caller, and leaves the queue, cursor, loop flag,
process handle and phase unchanged (only `stop_signal`, set before the
lookup, is cleared). -/
theorem C8_unknown_group_404 (s : Sys) (cfg : StreamConfig) (gid : String) (ok : Bool)
    (hg : cfg.group_id = some gid) (hmiss : lookupGroup s.db gid = none) :
    (start_stream s cfg ok).1 = some 404
    ∧ (start_stream s cfg ok).2 =
        { s with eng := { s.eng with stop_signal := false } }
    ∧ (start_stream s cfg ok).2.eng.playlist_queue = s.eng.playlist_queue
    ∧ (start_stream s cfg ok).2.eng.current_index = s.eng.current_index
    ∧ (start_stream s cfg ok).2.eng.is_looping = s.eng.is_looping
    ∧ (start_stream s cfg ok).2.eng.process = s.eng.process
    ∧ (start_stream s cfg ok).2.eng.status = s.eng.status := by
  unfold start_stream
  simp [hg, hmiss]

/-- Witness for C8: starting the unknown group `"g"` on the initial system. -/
theorem C8_unknown_group_404_witness :
    ((⟨none, some "g", true⟩ : StreamConfig).group_id = some "g"
      ∧ lookupGroup initSys.db "g" = none)
    ∧ ((start_stream initSys ⟨none, some "g", true⟩ true).1 = some 404
      ∧ (start_stream initSys ⟨none, some "g", true⟩ true).2 =
          { initSys with eng := { initSys.eng with stop_signal := false } }
      ∧ (start_stream initSys ⟨none, some "g", true⟩ true).2.eng.playlist_queue
          = initSys.eng.playlist_queue
      ∧ (start_stream initSys ⟨none, some "g", true⟩ true).2.eng.current_index
          = initSys.eng.current_index
      ∧ (start_stream initSys ⟨none, some "g", true⟩ true).2.eng.is_looping
          = initSys.eng.is_looping
      ∧ (start_stream initSys ⟨none, some "g", true⟩ true).2.eng.process
          = initSys.eng.process
      ∧ (start_stream initSys ⟨none, some "g", true⟩ true).2.eng.status
          = initSys.eng.status) :=
  ⟨⟨rfl, rfl⟩, C8_unknown_group_404 initSys ⟨none, some "g", true⟩ "g" true rfl rfl⟩

/-- Claim C9: a Stop request disables auto mode, force-stops the process
and always empties the playlist queue; consequently re-enabling auto mode
alone (clearing `stop_signal` without installing a queue) leaves every
subsequent tick a no-op, so nothing resumes until a Start installs a new
queue. -/
theorem C9_stop_clears_queue (s : Sys) :
    (stop_stream s).eng.playlist_queue = []
    ∧ (stop_stream s).eng.stop_signal = true
    ∧ (stop_stream s).eng.process = none
    ∧ (stop_stream s).eng.status = Status.IDLE
    ∧ (∀ ok : Bool,
        tick (reenableAuto (stop_stream s)) ok = reenableAuto (stop_stream s)) := by
  obtain ⟨he, _, _⟩ := sysKill_spec
    { s with eng := { s.eng with stop_signal := true, playlist_queue := [] } }
  unfold stop_stream
  refine ⟨by simp [he], by simp [he], by simp [he], by simp [he], ?_⟩
  intro ok
  apply tick_empty_queue
  simp [reenableAuto, he]

/-- Claim C10: a sweep deletes only `.ts` files: every file whose name does
not end in `.ts` — in particular the manifest — survives the sweep whatever
its age, and the sweep never adds files. -/
theorem C10_non_ts_untouched (now : Int) (files : List FileEnt) (f : FileEnt)
    (hf : f ∈ files) (hts : strEndsWith f.name ".ts" = false) :
    f ∈ cleanup_sweep now files
    ∧ ∀ g ∈ cleanup_sweep now files, g ∈ files := by
  constructor
  · exact List.mem_filter.mpr ⟨hf, by simp [hts]⟩
  · intro g hg
    exact (List.mem_filter.mp hg).1

/-- Witness for C10: `index.m3u8`, one million seconds old, is retained. -/
theorem C10_non_ts_untouched_witness :
    (manifestFile ∈ [manifestFile]
      ∧ strEndsWith manifestFile.name ".ts" = false)
    ∧ (manifestFile ∈ cleanup_sweep 1000000 [manifestFile]
      ∧ ∀ g ∈ cleanup_sweep 1000000 [manifestFile], g ∈ [manifestFile]) :=
  ⟨⟨by decide, by decide⟩,
   C10_non_ts_untouched 1000000 [manifestFile] manifestFile (by decide) (by decide)⟩
